import Mathlib

/-!
Shallow embedding of the Molekule Home Assistant integration
(`custom_components/molekule/api.py`, its earlier variant `api.py`, and the
refresh cycle in `custom_components/molekule/__init__.py`), together with
theorems settling the specification claims about it.

Numeric sensor readings are modelled as rationals (`ℚ`); time is modelled in
seconds as integers; the network is modelled as a script assigning to each
issued attempt its outcome (a transport failure or an HTTP response).
-/

namespace Molekule

/-- A JSON value, as manipulated by the Python client (dicts are ordered
association lists, matching Python dict iteration order). -/
inductive Json where
  | null : Json
  | bool (b : Bool) : Json
  | num (q : ℚ) : Json
  | str (s : String) : Json
  | arr (elems : List Json) : Json
  | obj (fields : List (String × Json)) : Json
deriving Repr

/-- The Python test `v is None`. -/
def Json.isNull : Json → Bool
  | .null => true
  | _ => false

mutual

/-- Function `clean_none_values` (api.py lines 13-22 / legacy api.py lines 11-20):
recursively drops `None` values from dicts and lists and turns a bare `None`
into the empty string.  `cleanFields` embeds the dict comprehension
`{k: clean_none_values(v) for k, v in d.items() if v is not None}` and
`cleanList` the list comprehension. -/
def clean_none_values : Json → Json
  | .null => .str ("")
  | .bool b => .bool b
  | .num q => .num q
  | .str s => .str s
  | .arr elems => .arr (cleanList elems)
  | .obj fields => .obj (cleanFields fields)

/-- List comprehension of `clean_none_values`. -/
def cleanList : List Json → List Json
  | [] => []
  | v :: rest => if v.isNull then cleanList rest else clean_none_values v :: cleanList rest

/-- Dict comprehension of `clean_none_values`. -/
def cleanFields : List (String × Json) → List (String × Json)
  | [] => []
  | kv :: rest =>
      if kv.2.isNull then cleanFields rest else (kv.1, clean_none_values kv.2) :: cleanFields rest

end

mutual

/-- Returns `true` when a JSON tree contains no `null` anywhere. -/
def Json.noNull : Json → Bool
  | .null => false
  | .bool _ => true
  | .num _ => true
  | .str _ => true
  | .arr elems => listNoNull elems
  | .obj fields => fieldsNoNull fields

/-- Applies `Json.noNull` to every element of a list. -/
def listNoNull : List Json → Bool
  | [] => true
  | v :: rest => v.noNull && listNoNull rest

/-- Applies `Json.noNull` to every value of a field list. -/
def fieldsNoNull : List (String × Json) → Bool
  | [] => true
  | kv :: rest => kv.2.noNull && fieldsNoNull rest

end

/-- Structural induction on `Json` exposing the element hypotheses of the
nested lists. -/
def Json.inductionOn {P : Json → Prop}
    (hnull : P .null) (hbool : ∀ b, P (.bool b)) (hnum : ∀ q, P (.num q))
    (hstr : ∀ s, P (.str s))
    (harr : ∀ elems, (∀ x ∈ elems, P x) → P (.arr elems))
    (hobj : ∀ fields, (∀ kv ∈ fields, P kv.2) → P (.obj fields)) :
    ∀ d, P d
  | .null => hnull
  | .bool b => hbool b
  | .num q => hnum q
  | .str s => hstr s
  | .arr elems =>
      harr elems (fun x hx =>
        Json.inductionOn hnull hbool hnum hstr harr hobj x)
  | .obj fields =>
      hobj fields (fun kv hkv =>
        Json.inductionOn hnull hbool hnum hstr harr hobj kv.2)
termination_by d => sizeOf d
decreasing_by
  · have := List.sizeOf_lt_of_mem hx
    simp
    omega
  · have h1 : sizeOf kv < sizeOf fields := List.sizeOf_lt_of_mem hkv
    have h2 : sizeOf kv.2 < sizeOf kv := by
      obtain ⟨k, v⟩ := kv
      simp
    simp
    omega

theorem noNull_not_isNull {v : Json} (h : v.noNull = true) : v.isNull = false := by
  cases v <;> simp_all [Json.noNull, Json.isNull]

theorem listNoNull_cleanList (elems : List Json)
    (ih : ∀ x ∈ elems, (clean_none_values x).noNull = true) :
    listNoNull (cleanList elems) = true := by
  induction elems with
  | nil => rfl
  | cons v rest ihr =>
      have hrest : listNoNull (cleanList rest) = true :=
        ihr (fun x hx => ih x (List.mem_cons_of_mem _ hx))
      by_cases hv : v.isNull
      · simpa [cleanList, hv] using hrest
      · simp only [cleanList, hv, Bool.false_eq_true, if_false, listNoNull, Bool.and_eq_true]
        exact ⟨ih v (List.mem_cons_self _ _), hrest⟩

theorem fieldsNoNull_cleanFields (fields : List (String × Json))
    (ih : ∀ kv ∈ fields, (clean_none_values kv.2).noNull = true) :
    fieldsNoNull (cleanFields fields) = true := by
  induction fields with
  | nil => rfl
  | cons kv rest ihr =>
      have hrest : fieldsNoNull (cleanFields rest) = true :=
        ihr (fun x hx => ih x (List.mem_cons_of_mem _ hx))
      by_cases hv : kv.2.isNull
      · simpa [cleanFields, hv] using hrest
      · simp only [cleanFields, hv, Bool.false_eq_true, if_false, fieldsNoNull,
          Bool.and_eq_true]
        exact ⟨ih kv (List.mem_cons_self _ _), hrest⟩

theorem noNull_clean (d : Json) : (clean_none_values d).noNull = true := by
  induction d using Json.inductionOn with
  | hnull => rfl
  | hbool b => rfl
  | hnum q => rfl
  | hstr s => rfl
  | harr elems ih =>
      simpa [clean_none_values, Json.noNull] using listNoNull_cleanList elems ih
  | hobj fields ih =>
      simpa [clean_none_values, Json.noNull] using fieldsNoNull_cleanFields fields ih

theorem cleanList_of_noNull (elems : List Json) (h : listNoNull elems = true)
    (ih : ∀ x ∈ elems, x.noNull = true → clean_none_values x = x) :
    cleanList elems = elems := by
  induction elems with
  | nil => rfl
  | cons v rest ihr =>
      simp only [listNoNull, Bool.and_eq_true] at h
      have hv : v.isNull = false := noNull_not_isNull h.1
      simp only [cleanList, hv, Bool.false_eq_true, if_false]
      rw [ih v (List.mem_cons_self _ _) h.1,
        ihr h.2 (fun x hx => ih x (List.mem_cons_of_mem _ hx))]

theorem cleanFields_of_noNull (fields : List (String × Json)) (h : fieldsNoNull fields = true)
    (ih : ∀ kv ∈ fields, kv.2.noNull = true → clean_none_values kv.2 = kv.2) :
    cleanFields fields = fields := by
  induction fields with
  | nil => rfl
  | cons kv rest ihr =>
      simp only [fieldsNoNull, Bool.and_eq_true] at h
      have hv : kv.2.isNull = false := noNull_not_isNull h.1
      simp only [cleanFields, hv, Bool.false_eq_true, if_false]
      rw [ih kv (List.mem_cons_self _ _) h.1,
        ihr h.2 (fun x hx => ih x (List.mem_cons_of_mem _ hx))]

theorem clean_of_noNull (d : Json) (h : d.noNull = true) : clean_none_values d = d := by
  induction d using Json.inductionOn with
  | hnull => simp [Json.noNull] at h
  | hbool b => rfl
  | hnum q => rfl
  | hstr s => rfl
  | harr elems ih =>
      simp only [Json.noNull] at h
      simp only [clean_none_values, Json.arr.injEq]
      exact cleanList_of_noNull elems h ih
  | hobj fields ih =>
      simp only [Json.noNull] at h
      simp only [clean_none_values, Json.obj.injEq]
      exact cleanFields_of_noNull fields h ih

/-- Claim C7 — `clean_none_values` is idempotent; its output contains no nulls
(every null of the input was dropped from its containing dict or list or
replaced by the empty string); and on a tree already free of nulls it changes
nothing (non-null values and structure are left unchanged). -/
theorem claim_C7_clean_none_values_idempotent (d : Json) :
    clean_none_values (clean_none_values d) = clean_none_values d ∧
      (clean_none_values d).noNull = true ∧
      (d.noNull = true → clean_none_values d = d) :=
  ⟨clean_of_noNull _ (noNull_clean d), noNull_clean d, clean_of_noNull d⟩

/-- A concrete JSON tree with nested nulls. -/
def jsonExample : Json :=
  .obj [("a", .null), ("b", .arr [.null, .num 3, .obj [("c", .null)]]), ("d", .str ("x"))]

/-- A concrete JSON tree without nulls. -/
def jsonExampleClean : Json := .obj [("b", .arr [.num 3]), ("d", .str ("x"))]

theorem claim_C7_witness :
    clean_none_values (clean_none_values jsonExample) = clean_none_values jsonExample ∧
      (clean_none_values jsonExample).noNull = true ∧
      clean_none_values jsonExampleClean = jsonExampleClean :=
  ⟨(claim_C7_clean_none_values_idempotent jsonExample).1,
    (claim_C7_clean_none_values_idempotent jsonExample).2.1,
    (claim_C7_clean_none_values_idempotent jsonExampleClean).2.2 rfl⟩

/-! ## The request pipeline (`MolekuleApi._make_request`, api.py lines 120-161)

The network is a *script*: a function assigning to each issued attempt
(numbered by loop iteration) its outcome.  Effects of the loop are tracked
explicitly; tokens are modelled as natural numbers, each `authenticate` call
producing a fresh one. -/

/-- Outcome of one issued HTTP attempt: a transport-level failure
(`aiohttp.ClientError` / `asyncio.TimeoutError`) or a response with a status
code and a parsed body. -/
inductive AttemptOutcome (β : Type) where
  | transportFail : AttemptOutcome β
  | httpResp (status : Nat) (body : β) : AttemptOutcome β
deriving DecidableEq, Repr

/-- Result of `_make_request`: a normal return (`None` or the parsed body), or
a raised `ApiConnectionError`. -/
inductive MakeRequestResult (β : Type) where
  | ret (body : Option β) : MakeRequestResult β
  | apiConnectionError : MakeRequestResult β
deriving DecidableEq, Repr

/-- Observable effects of one run of the retry loop.  `attemptsMade` counts
loop iterations (requests issued), `sleeps` records the argument of each
`asyncio.sleep` in seconds, `authCalls` counts `authenticate()` calls made by
the 401 branch, `sessionRebuilds` counts the close-and-rebuild pairs of the
transport-failure branch, `token` is the current `self.token` and `header` the
current `headers["Authorization"]`. -/
structure LoopEffects where
  attemptsMade : Nat
  sleeps : List Nat
  authCalls : Nat
  sessionRebuilds : Nat
  token : Nat
  header : Nat
deriving DecidableEq, Repr

/-- Constant `self._retry_attempts` (api.py line 51). -/
def _retry_attempts : Nat := 3

/-- Constant `self._retry_delay`, in seconds (api.py line 52). -/
def _retry_delay : Nat := 1

/-- The `for attempt in range(self._retry_attempts)` loop of `_make_request`
(api.py lines 128-159), with `remaining` iterations left and the current
0-based `attempt` index.  The body follows the source line by line:
status 401 → `authenticate()`, update the Authorization header, `continue`;
status 204 → `return None`; status ≠ 200 → log and `return None`;
status 200 → `return await response.json()`; transport failure → if budget
remains, `sleep(retry_delay * (attempt + 1))`, close and rebuild the session
and continue, else raise `ApiConnectionError`.  Falling off the loop returns
`None` (line 161). -/
def runLoop {β : Type} (script : Nat → AttemptOutcome β) :
    Nat → Nat → LoopEffects → LoopEffects × MakeRequestResult β
  | 0, _, eff => (eff, .ret none)
  | remaining + 1, attempt, eff =>
      let eff1 := { eff with attemptsMade := eff.attemptsMade + 1 }
      match script attempt with
      | .httpResp status body =>
          if status = 401 then
            runLoop script remaining (attempt + 1)
              { eff1 with authCalls := eff1.authCalls + 1,
                          token := eff1.token + 1,
                          header := eff1.token + 1 }
          else if status = 204 then (eff1, .ret none)
          else if status ≠ 200 then (eff1, .ret none)
          else (eff1, .ret (some body))
      | .transportFail =>
          if attempt + 1 < _retry_attempts then
            runLoop script remaining (attempt + 1)
              { eff1 with sleeps := eff1.sleeps ++ [_retry_delay * (attempt + 1)],
                          sessionRebuilds := eff1.sessionRebuilds + 1 }
          else (eff1, .apiConnectionError)

/-- Function `_make_request` entered with a valid token `token0`: sets the
Authorization header from the token (line 126) and runs the retry loop. -/
def _make_request {β : Type} (token0 : Nat) (script : Nat → AttemptOutcome β) :
    LoopEffects × MakeRequestResult β :=
  runLoop script _retry_attempts 0
    { attemptsMade := 0, sleeps := [], authCalls := 0, sessionRebuilds := 0,
      token := token0, header := token0 }

/-- Claim C1 — when every one of the 3 attempts fails at the transport level,
`_make_request` makes exactly 3 attempts, sleeps 1 s before attempt 2 and 2 s
before attempt 3 (delay `retry_delay * attempt index`), performs no sleep
after the final attempt (the sleep list is exactly `[1, 2]`), and fails with
`ApiConnectionError`. -/
theorem claim_C1_retry_budget {β : Type} (token0 : Nat) (script : Nat → AttemptOutcome β)
    (h : ∀ i, i < 3 → script i = .transportFail) :
    _make_request token0 script =
      ({ attemptsMade := 3, sleeps := [1, 2], authCalls := 0, sessionRebuilds := 2,
         token := token0, header := token0 }, .apiConnectionError) := by
  have h0 := h 0 (by norm_num)
  have h1 := h 1 (by norm_num)
  have h2 := h 2 (by norm_num)
  simp [_make_request, _retry_attempts, _retry_delay, runLoop, h0, h1, h2]

theorem claim_C1_witness :
    _make_request 0 (fun _ => (.transportFail : AttemptOutcome Unit)) =
      ({ attemptsMade := 3, sleeps := [1, 2], authCalls := 0, sessionRebuilds := 2,
         token := 0, header := 0 }, .apiConnectionError) :=
  claim_C1_retry_budget 0 _ (fun _ _ => rfl)

/-- Claim C2 — on a response sequence `[401, 200]`, `_make_request` performs
exactly one re-authentication (one `authenticate()` call, the Authorization
header updated to the fresh token), returns the parsed body of the 200
response, and the 401 consumed one of the 3 retry-budget attempts (2 loop
iterations were used in total). -/
theorem claim_C2_401_reauthentication {β : Type} (token0 : Nat)
    (script : Nat → AttemptOutcome β) (b401 b200 : β)
    (h0 : script 0 = .httpResp 401 b401) (h1 : script 1 = .httpResp 200 b200) :
    _make_request token0 script =
      ({ attemptsMade := 2, sleeps := [], authCalls := 1, sessionRebuilds := 0,
         token := token0 + 1, header := token0 + 1 }, .ret (some b200)) := by
  simp [_make_request, _retry_attempts, runLoop, h0, h1]

theorem claim_C2_witness :
    _make_request 5
        (fun i => if i = 0 then AttemptOutcome.httpResp 401 () else .httpResp 200 ()) =
      ({ attemptsMade := 2, sleeps := [], authCalls := 1, sessionRebuilds := 0,
         token := 6, header := 6 }, .ret (some ())) :=
  claim_C2_401_reauthentication 5 _ () () rfl rfl

/-! ## DeviceApiClient operations (api.py lines 163-272)

Every operation wraps its `_make_request` call in `try: ... except Exception:`
and returns `None` (getters) or `False` (setters) when any exception escapes
the pipeline; a raised `ApiConnectionError` is therefore absorbed, which the
operation definitions below encode by matching on the pipeline result. -/

/-- Python truthiness of a JSON value (`if data`). -/
def Json.truthy : Json → Bool
  | .null => false
  | .bool b => b
  | .num q => q != 0
  | .str s => s != ""
  | .arr elems => !elems.isEmpty
  | .obj fields => !fields.isEmpty

/-- Constant `API_URL` (const.py line 12). -/
def API_URL : String := "https://api.molekule.com/users/me/devices/"

/-- An HTTP request as assembled by the operations: method, URL and optional
JSON body. -/
structure HttpRequest where
  method : String
  url : String
  body : Option Json

/-- Operation `get_devices` (api.py lines 163-170): request the device list; on a
normal pipeline return, `clean_none_values(data) if data else None`; on any
exception (including `ApiConnectionError`), log and return `None`. -/
def get_devices (token0 : Nat) (script : Nat → AttemptOutcome Json) : Option Json :=
  match (_make_request token0 script).2 with
  | .apiConnectionError => none
  | .ret none => none
  | .ret (some data) => if data.truthy then some (clean_none_values data) else none

/-- Operation `get_aqi` (api.py lines 264-272): same normalization and exception
handling as `get_devices`. -/
def get_aqi (token0 : Nat) (script : Nat → AttemptOutcome Json) : Option Json :=
  match (_make_request token0 script).2 with
  | .apiConnectionError => none
  | .ret none => none
  | .ret (some data) => if data.truthy then some (clean_none_values data) else none

/-- The request issued by `set_power_status` (api.py lines 219-225). -/
def set_power_status_request (serial : String) (status : Bool) : HttpRequest :=
  { method := "POST", url := API_URL ++ serial ++ "/actions/set-power-status",
    body := some (.obj [("status", .str (if status then ("on") else ("off")))]) }

/-- Operation `set_power_status` (api.py lines 217-229): returns `True` whenever the
pipeline returns normally, `False` when an exception escapes it. -/
def set_power_status (token0 : Nat) (script : Nat → AttemptOutcome Json)
    (serial : String) (status : Bool) : Bool :=
  match (_make_request token0 script).2 with
  | .apiConnectionError => false
  | .ret _ => true

/-- The request issued by `set_fan_speed` (api.py lines 233-239). -/
def set_fan_speed_request (serial : String) (speed : Int) : HttpRequest :=
  { method := "POST", url := API_URL ++ serial ++ "/actions/set-fan-speed",
    body := some (.obj [("fanSpeed", .num (speed : ℚ))]) }

/-- Operation `set_fan_speed` (api.py lines 231-243). -/
def set_fan_speed (token0 : Nat) (script : Nat → AttemptOutcome Json)
    (serial : String) (speed : Int) : Bool :=
  match (_make_request token0 script).2 with
  | .apiConnectionError => false
  | .ret _ => true

/-- The request issued by `set_auto_mode` (api.py lines 245-262): with
`auto = True`, an enable-smart-mode POST with body
`{"silent": str(int(silent))}`; with `auto = False` the request of
`set_fan_speed(serial, 1)`. -/
def set_auto_mode_request (serial : String) (auto silent : Bool) : HttpRequest :=
  if auto then
    { method := "POST", url := API_URL ++ serial ++ "/actions/enable-smart-mode",
      body := some (.obj [("silent", .str (if silent then ("1") else ("0")))]) }
  else set_fan_speed_request serial 1

/-- Operation `set_auto_mode` (api.py lines 245-262): the `auto = False` branch is
`return await self.set_fan_speed(serial, 1)`. -/
def set_auto_mode (token0 : Nat) (script : Nat → AttemptOutcome Json)
    (serial : String) (auto silent : Bool) : Bool :=
  if auto then
    match (_make_request token0 script).2 with
    | .apiConnectionError => false
    | .ret _ => true
  else set_fan_speed token0 script serial 1

/-- Claim C9 — for every serial, token, script and silent flag,
`set_auto_mode(serial, False, silent)` issues exactly the request of
`set_fan_speed(serial, 1)` and returns the same result. -/
theorem claim_C9_auto_mode_off_is_fan_speed_one (token0 : Nat)
    (script : Nat → AttemptOutcome Json) (serial : String) (silent : Bool) :
    set_auto_mode token0 script serial false silent = set_fan_speed token0 script serial 1 ∧
      set_auto_mode_request serial false silent = set_fan_speed_request serial 1 :=
  ⟨rfl, rfl⟩

/-! ## Sensor-data reduction (`_process_sensor_data`)

A raw pollutant entry carries a `type` string and the `v` values of its
`sensorDataValue` series, in series order.  -1 is the "invalid" sentinel. -/

/-- One entry of the raw `sensorData` array: its `type` and the `v` field of
each element of its `sensorDataValue` series, in series order. -/
structure Pollutant where
  type : String
  sensorDataValue : List ℚ
deriving DecidableEq, Repr

/-- The shape of a raw sensor-data response body as tested by
`if not data or sensorData not in data` (api.py line 192): a falsy value, a
truthy dict lacking the `sensorData` key, or a dict with a `sensorData`
array. -/
inductive SensorResponseBody where
  | empty : SensorResponseBody
  | noKey : SensorResponseBody
  | withData (sensorData : List Pollutant) : SensorResponseBody
deriving DecidableEq, Repr

/-- Python truthiness of a raw sensor-data response body. -/
def SensorResponseBody.truthy : SensorResponseBody → Bool
  | .empty => false
  | _ => true

/-- The `processed_data` dict initialised at api.py lines 195-201: each of the
five tracked pollutant keys mapped to `None`. -/
structure ProcessedData where
  PM2_5 : Option ℚ
  PM10 : Option ℚ
  RH : Option ℚ
  TVOC : Option ℚ
  CO2 : Option ℚ
deriving DecidableEq, Repr

/-- The keys of the `processed_data` dict (api.py lines 195-201). -/
def pollutantKeys : List String := ["PM2_5", "PM10", "RH", "TVOC", "CO2"]

/-- The initial `processed_data` value (api.py lines 195-201). -/
def initProcessed : ProcessedData := ⟨none, none, none, none, none⟩

/-- Dict lookup `processed_data[k]` (absent keys read as `none`). -/
def ProcessedData.getKey (pd : ProcessedData) (k : String) : Option ℚ :=
  if k = "PM2_5" then pd.PM2_5
  else if k = "PM10" then pd.PM10
  else if k = "RH" then pd.RH
  else if k = "TVOC" then pd.TVOC
  else if k = "CO2" then pd.CO2
  else none

/-- Dict assignment `processed_data[k] = v` for `k` among the five keys (a no
op on other keys, which the guard of `processPollutant` excludes anyway). -/
def ProcessedData.setKey (pd : ProcessedData) (k : String) (v : ℚ) : ProcessedData :=
  if k = "PM2_5" then { pd with PM2_5 := some v }
  else if k = "PM10" then { pd with PM10 := some v }
  else if k = "RH" then { pd with RH := some v }
  else if k = "TVOC" then { pd with TVOC := some v }
  else if k = "CO2" then { pd with CO2 := some v }
  else pd

/-- The list comprehension keeping the non-sentinel values of a series,
followed by its last element when non-empty (api.py lines 208-210). -/
def lastValid (values : List ℚ) : Option ℚ :=
  (values.filter (fun v => v ≠ -1)).getLast?

/-- The body of the loop over the sensorData array (api.py lines
204-210): when the type of the pollutant is one of the tracked keys and its series
has a valid (non -1) value, store the last such value. -/
def processPollutant (pd : ProcessedData) (p : Pollutant) : ProcessedData :=
  if p.type ∈ pollutantKeys then
    match lastValid p.sensorDataValue with
    | some v => pd.setKey p.type v
    | none => pd
  else pd

/-- The loop of `_process_sensor_data` over the `sensorData` array. -/
def processSensorList (ps : List Pollutant) : ProcessedData :=
  ps.foldl processPollutant initProcessed

/-- Function `_process_sensor_data` (api.py lines 188-215): `None` for a falsy response
or one without the `sensorData` key, otherwise the reduced dict. -/
def _process_sensor_data : SensorResponseBody → Option ProcessedData
  | .empty => none
  | .noKey => none
  | .withData ps => some (processSensorList ps)

/-- Operation `get_sensor_data` (api.py lines 172-186):
`self._process_sensor_data(data) if data else None` on a normal pipeline
return; `None` when any exception escapes the pipeline. -/
def get_sensor_data (token0 : Nat) (script : Nat → AttemptOutcome SensorResponseBody) :
    Option ProcessedData :=
  match (_make_request token0 script).2 with
  | .apiConnectionError => none
  | .ret none => none
  | .ret (some data) => if data.truthy then _process_sensor_data data else none

theorem getKey_initProcessed (k : String) : initProcessed.getKey k = none := by
  unfold initProcessed ProcessedData.getKey
  split_ifs <;> rfl

theorem getKey_setKey_ne (pd : ProcessedData) (k k' : String) (v : ℚ) (h : k' ≠ k) :
    (pd.setKey k v).getKey k' = pd.getKey k' := by
  unfold ProcessedData.setKey
  by_cases h1 : k = "PM2_5"
  · subst h1
    rw [if_pos rfl]
    simp [ProcessedData.getKey, h]
  rw [if_neg h1]
  by_cases h2 : k = "PM10"
  · subst h2
    rw [if_pos rfl]
    simp [ProcessedData.getKey, h]
  rw [if_neg h2]
  by_cases h3 : k = "RH"
  · subst h3
    rw [if_pos rfl]
    simp [ProcessedData.getKey, h]
  rw [if_neg h3]
  by_cases h4 : k = "TVOC"
  · subst h4
    rw [if_pos rfl]
    simp [ProcessedData.getKey, h]
  rw [if_neg h4]
  by_cases h5 : k = "CO2"
  · subst h5
    rw [if_pos rfl]
    simp [ProcessedData.getKey, h]
  rw [if_neg h5]

theorem getKey_setKey_self (pd : ProcessedData) (k : String) (v : ℚ)
    (h : k ∈ pollutantKeys) : (pd.setKey k v).getKey k = some v := by
  simp only [pollutantKeys, List.mem_cons, List.mem_singleton, List.not_mem_nil, or_false] at h
  rcases h with h | h | h | h | h <;> subst h <;> rfl

theorem getKey_processPollutant_ne (pd : ProcessedData) (p : Pollutant) (k : String)
    (h : p.type ≠ k) : (processPollutant pd p).getKey k = pd.getKey k := by
  unfold processPollutant
  split_ifs with hmem
  · cases lastValid p.sensorDataValue with
    | none => rfl
    | some v => exact getKey_setKey_ne pd p.type k v (fun hk => h hk.symm)
  · rfl

theorem getKey_foldl_of_not_mem (ps : List Pollutant) (pd : ProcessedData) (k : String)
    (h : ∀ p ∈ ps, p.type ≠ k) :
    (ps.foldl processPollutant pd).getKey k = pd.getKey k := by
  induction ps generalizing pd with
  | nil => rfl
  | cons p rest ih =>
      rw [List.foldl_cons, ih _ (fun q hq => h q (List.mem_cons_of_mem _ hq)),
        getKey_processPollutant_ne pd p k (h p (List.mem_cons_self _ _))]

theorem processPollutant_not_tracked (pd : ProcessedData) (p : Pollutant)
    (h : p.type ∉ pollutantKeys) : processPollutant pd p = pd := by
  unfold processPollutant
  rw [if_neg h]

theorem foldl_filter_tracked (ps : List Pollutant) (pd : ProcessedData) :
    (ps.filter (fun p => p.type ∈ pollutantKeys)).foldl processPollutant pd =
      ps.foldl processPollutant pd := by
  induction ps generalizing pd with
  | nil => rfl
  | cons p rest ih =>
      by_cases hp : p.type ∈ pollutantKeys
      · simp only [List.filter_cons, hp, decide_True, if_true, List.foldl_cons]
        exact ih _
      · simp only [List.filter_cons, hp, decide_False, Bool.false_eq_true, if_false,
          List.foldl_cons, processPollutant_not_tracked pd p hp]
        exact ih pd

theorem getLast?_filter_eq_find?_reverse {α : Type} (p : α → Bool) (l : List α) :
    (l.filter p).getLast? = l.reverse.find? p := by
  induction l using List.reverseRecOn with
  | nil => rfl
  | append_singleton l' a ih =>
      rw [List.filter_append, List.reverse_append]
      by_cases hp : p a
      · simp [List.filter_cons, hp, List.getLast?_concat, List.find?_cons]
      · simp [List.filter_cons, hp, List.find?_cons, ih]

/-- Claim C4 — for a sensor-data response whose pollutant entries have pairwise
distinct types: each tracked pollutant is mapped to the last (most recent in
series order) non-sentinel value of its series — equivalently the first
non-sentinel value of the reversed series; a tracked pollutant whose series
is empty or all-sentinel, or that has no entry at all, reads as `None`; and
entries with untracked types are ignored (filtering them away leaves the
result unchanged). -/
theorem claim_C4_sensor_reduction (ps : List Pollutant) :
    ((ps.map Pollutant.type).Nodup →
        ∀ p ∈ ps, p.type ∈ pollutantKeys →
          (processSensorList ps).getKey p.type = lastValid p.sensorDataValue) ∧
      (∀ k : String, (∀ p ∈ ps, p.type ≠ k) → (processSensorList ps).getKey k = none) ∧
      processSensorList (ps.filter (fun p => p.type ∈ pollutantKeys)) = processSensorList ps ∧
      (∀ values : List ℚ, lastValid values = values.reverse.find? (fun v => v ≠ -1)) := by
  refine ⟨?_, ?_, foldl_filter_tracked ps initProcessed,
    fun values => getLast?_filter_eq_find?_reverse _ values⟩
  · intro hnodup p hp hkey
    obtain ⟨l₁, l₂, rfl⟩ := List.append_of_mem hp
    rw [List.map_append, List.map_cons] at hnodup
    have hdisj := List.disjoint_of_nodup_append hnodup
    have hl₁ : ∀ q ∈ l₁, q.type ≠ p.type := by
      intro q hq hqt
      exact hdisj (hqt ▸ List.mem_map_of_mem Pollutant.type hq) (List.mem_cons_self _ _)
    have hcons := (List.nodup_cons.mp hnodup.of_append_right).1
    have hl₂ : ∀ q ∈ l₂, q.type ≠ p.type := by
      intro q hq hqt
      exact hcons (hqt ▸ List.mem_map_of_mem Pollutant.type hq)
    unfold processSensorList
    rw [List.foldl_append, List.foldl_cons,
      getKey_foldl_of_not_mem l₂ _ p.type hl₂]
    have hbase : (l₁.foldl processPollutant initProcessed).getKey p.type = none := by
      rw [getKey_foldl_of_not_mem l₁ _ p.type hl₁, getKey_initProcessed]
    unfold processPollutant
    rw [if_pos hkey]
    cases hl : lastValid p.sensorDataValue with
    | none => simpa using hbase
    | some v => simpa using getKey_setKey_self _ p.type v hkey
  · intro k hk
    unfold processSensorList
    rw [getKey_foldl_of_not_mem ps _ k hk, getKey_initProcessed]

/-- A concrete sensor-data series: PM2_5 with sentinel-interleaved readings,
RH all-sentinel, and an untracked type. -/
def pollutantListExample : List Pollutant :=
  [⟨"PM2_5", [-1, 3, 7, -1]⟩, ⟨"RH", [-1, -1]⟩, ⟨"Mystery", [4]⟩]

theorem claim_C4_witness :
    (processSensorList pollutantListExample).getKey ("PM2_5") = some 7 ∧
      (processSensorList pollutantListExample).getKey ("RH") = none ∧
      (processSensorList pollutantListExample).getKey ("CO2") = none ∧
      processSensorList (pollutantListExample.filter (fun p => p.type ∈ pollutantKeys)) =
        processSensorList pollutantListExample ∧
      lastValid [-1, 3, 7, -1] = [(-1 : ℚ), 7, 3, -1].find? (fun v => v ≠ -1) := by
  have h := claim_C4_sensor_reduction pollutantListExample
  refine ⟨?_, ?_, ?_, h.2.2.1, ?_⟩
  · have := h.1 (by decide) ⟨"PM2_5", [-1, 3, 7, -1]⟩ (by decide) (by decide)
    rw [this]
    decide
  · have := h.1 (by decide) ⟨"RH", [-1, -1]⟩ (by decide) (by decide)
    rw [this]
    decide
  · exact h.2.1 ("CO2") (by decide)
  · have := h.2.2.2 [-1, 3, 7, -1]
    rw [this]
    rfl

/-! ## The legacy variant of `_process_sensor_data` (legacy api.py lines 79-99)

The earlier `api.py` initialises each tracked pollutant to `0` and scans each
series in reverse with a `break` on the first non-sentinel value. -/

/-- The legacy `processed_data` dict (legacy api.py lines 83-89): the five
tracked keys, each initialised to `0`. -/
structure LegacyProcessedData where
  PM2_5 : ℚ
  PM10 : ℚ
  RH : ℚ
  TVOC : ℚ
  CO2 : ℚ
deriving DecidableEq, Repr

/-- The legacy initial dict (all zeros). -/
def legacyInitProcessed : LegacyProcessedData := ⟨0, 0, 0, 0, 0⟩

/-- Dict lookup in the legacy dict. -/
def LegacyProcessedData.getKey (pd : LegacyProcessedData) (k : String) : ℚ :=
  if k = "PM2_5" then pd.PM2_5
  else if k = "PM10" then pd.PM10
  else if k = "RH" then pd.RH
  else if k = "TVOC" then pd.TVOC
  else if k = "CO2" then pd.CO2
  else 0

/-- Dict assignment in the legacy dict. -/
def LegacyProcessedData.setKey (pd : LegacyProcessedData) (k : String) (v : ℚ) :
    LegacyProcessedData :=
  if k = "PM2_5" then { pd with PM2_5 := v }
  else if k = "PM10" then { pd with PM10 := v }
  else if k = "RH" then { pd with RH := v }
  else if k = "TVOC" then { pd with TVOC := v }
  else if k = "CO2" then { pd with CO2 := v }
  else pd

/-- The legacy reversed scan with break (legacy api.py lines 94-97): the
first non-sentinel value of the reversed series. -/
def legacySelect (values : List ℚ) : Option ℚ :=
  values.reverse.find? (fun v => v ≠ -1)

/-- The body of the legacy loop over the sensorData array (legacy api.py
lines 91-97). -/
def legacyProcessPollutant (pd : LegacyProcessedData) (p : Pollutant) : LegacyProcessedData :=
  if p.type ∈ pollutantKeys then
    match legacySelect p.sensorDataValue with
    | some v => pd.setKey p.type v
    | none => pd
  else pd

/-- The legacy loop over the `sensorData` array. -/
def legacyProcessSensorList (ps : List Pollutant) : LegacyProcessedData :=
  ps.foldl legacyProcessPollutant legacyInitProcessed

/-- The legacy `_process_sensor_data` (legacy api.py lines 79-99). -/
def legacy_process_sensor_data : SensorResponseBody → Option LegacyProcessedData
  | .empty => none
  | .noKey => none
  | .withData ps => some (legacyProcessSensorList ps)

theorem legacy_getKey_setKey_ne (pd : LegacyProcessedData) (k k' : String) (v : ℚ)
    (h : k' ≠ k) : (pd.setKey k v).getKey k' = pd.getKey k' := by
  unfold LegacyProcessedData.setKey
  by_cases h1 : k = "PM2_5"
  · subst h1
    rw [if_pos rfl]
    simp [LegacyProcessedData.getKey, h]
  rw [if_neg h1]
  by_cases h2 : k = "PM10"
  · subst h2
    rw [if_pos rfl]
    simp [LegacyProcessedData.getKey, h]
  rw [if_neg h2]
  by_cases h3 : k = "RH"
  · subst h3
    rw [if_pos rfl]
    simp [LegacyProcessedData.getKey, h]
  rw [if_neg h3]
  by_cases h4 : k = "TVOC"
  · subst h4
    rw [if_pos rfl]
    simp [LegacyProcessedData.getKey, h]
  rw [if_neg h4]
  by_cases h5 : k = "CO2"
  · subst h5
    rw [if_pos rfl]
    simp [LegacyProcessedData.getKey, h]
  rw [if_neg h5]

theorem legacy_getKey_setKey_self (pd : LegacyProcessedData) (k : String) (v : ℚ)
    (h : k ∈ pollutantKeys) : (pd.setKey k v).getKey k = v := by
  simp only [pollutantKeys, List.mem_cons, List.mem_singleton, List.not_mem_nil, or_false] at h
  rcases h with h | h | h | h | h <;> subst h <;> rfl

/-- The simulation relation between an evolved and a legacy `processed_data`
dict: the legacy value of each key is the evolved value with `None` read as
`0`. -/
def dictsAgree (pdE : ProcessedData) (pdL : LegacyProcessedData) : Prop :=
  ∀ k : String, pdL.getKey k = (pdE.getKey k).getD 0

theorem dictsAgree_init : dictsAgree initProcessed legacyInitProcessed := by
  intro k
  unfold initProcessed legacyInitProcessed ProcessedData.getKey LegacyProcessedData.getKey
  split_ifs <;> rfl

theorem lastValid_eq_legacySelect (values : List ℚ) :
    lastValid values = legacySelect values :=
  getLast?_filter_eq_find?_reverse _ values

theorem dictsAgree_step (pdE : ProcessedData) (pdL : LegacyProcessedData) (p : Pollutant)
    (h : dictsAgree pdE pdL) :
    dictsAgree (processPollutant pdE p) (legacyProcessPollutant pdL p) := by
  unfold processPollutant legacyProcessPollutant
  by_cases hmem : p.type ∈ pollutantKeys
  · rw [if_pos hmem, if_pos hmem, ← lastValid_eq_legacySelect]
    cases hv : lastValid p.sensorDataValue with
    | none => exact h
    | some v =>
        intro k
        by_cases hk : k = p.type
        · subst hk
          rw [legacy_getKey_setKey_self pdL p.type v hmem, getKey_setKey_self pdE p.type v hmem]
          rfl
        · rw [legacy_getKey_setKey_ne pdL p.type k v hk, getKey_setKey_ne pdE p.type k v hk]
          exact h k
  · rw [if_neg hmem, if_neg hmem]
    exact h

theorem dictsAgree_foldl (ps : List Pollutant) (pdE : ProcessedData)
    (pdL : LegacyProcessedData) (h : dictsAgree pdE pdL) :
    dictsAgree (ps.foldl processPollutant pdE) (ps.foldl legacyProcessPollutant pdL) := by
  induction ps generalizing pdE pdL with
  | nil => exact h
  | cons p rest ih => exact ih _ _ (dictsAgree_step pdE pdL p h)

/-- Claim C10 — the legacy and evolved `_process_sensor_data` agree: they reject
exactly the same inputs, and on accepted inputs the legacy dict reads, at
every key, the evolved value with `None` replaced by `0` — in particular a
pollutant with at least one valid (non -1) reading gets the same selected
value from both variants, and the variants differ only in reporting `0`
versus `None` for a pollutant without a valid reading. -/
theorem claim_C10_legacy_refines_evolved (d : SensorResponseBody) :
    (legacy_process_sensor_data d = none ↔ _process_sensor_data d = none) ∧
      (∀ pdL pdE, legacy_process_sensor_data d = some pdL →
        _process_sensor_data d = some pdE →
          ∀ k : String, pdL.getKey k = (pdE.getKey k).getD 0) := by
  cases d with
  | empty =>
      exact ⟨iff_of_true rfl rfl,
        by intro pdL pdE h; exact absurd h (by simp [legacy_process_sensor_data])⟩
  | noKey =>
      exact ⟨iff_of_true rfl rfl,
        by intro pdL pdE h; exact absurd h (by simp [legacy_process_sensor_data])⟩
  | withData ps =>
      constructor
      · simp [legacy_process_sensor_data, _process_sensor_data]
      · intro pdL pdE hL hE k
        simp only [legacy_process_sensor_data, Option.some.injEq] at hL
        simp only [_process_sensor_data, Option.some.injEq] at hE
        subst hL
        subst hE
        exact dictsAgree_foldl ps initProcessed legacyInitProcessed dictsAgree_init k

theorem claim_C10_witness :
    (legacy_process_sensor_data (.withData pollutantListExample) = none ↔
        _process_sensor_data (.withData pollutantListExample) = none) ∧
      LegacyProcessedData.getKey ⟨7, 0, 0, 0, 0⟩ "PM2_5" =
        (ProcessedData.getKey ⟨some 7, none, none, none, none⟩ "PM2_5").getD 0 ∧
      LegacyProcessedData.getKey ⟨7, 0, 0, 0, 0⟩ "RH" =
        (ProcessedData.getKey ⟨some 7, none, none, none, none⟩ "RH").getD 0 :=
  ⟨(claim_C10_legacy_refines_evolved (.withData pollutantListExample)).1,
    (claim_C10_legacy_refines_evolved (.withData pollutantListExample)).2 _ _
      (by decide) (by decide) "PM2_5",
    (claim_C10_legacy_refines_evolved (.withData pollutantListExample)).2 _ _
      (by decide) (by decide) "RH"⟩

/-! ## Token lifecycle (`ensure_token_valid`, api.py lines 98-118)

Time is in seconds.  A run of the token-maintenance code is summarised by
the credential-provider calls it starts and by whether it completes or blocks
forever.  The blocking case is real: `authenticate` and `refresh_token` both
guard their bodies with `async with self._auth_lock` (api.py lines 70 and
100), and `asyncio.Lock` is not reentrant, so a task that already holds the
lock and awaits it again is suspended forever. -/

/-- A credential-provider call: a full Cognito authentication or an access
token renewal. -/
inductive NetCall where
  | authCall : NetCall
  | refreshCall : NetCall
deriving DecidableEq, Repr

/-- Outcome of a run of the token-maintenance code: the credential-provider
calls it started, and whether it ran to completion or blocked forever on a
lock it can never acquire. -/
inductive AuthRun where
  | completed (calls : List NetCall) : AuthRun
  | deadlocked (calls : List NetCall) : AuthRun
deriving DecidableEq, Repr

/-- Method `authenticate` (api.py lines 68-81) as a run: it first enters
`async with self._auth_lock` (line 70).  When the calling task already holds
`_auth_lock`, that acquisition blocks forever and no credential exchange ever
starts; otherwise the Cognito exchange runs (one `authCall` — whether that
exchange succeeds or raises `AuthenticationError` is orthogonal to this model
and covered by the pipeline model of C5). -/
def authenticate_run (authLockHeld : Bool) : AuthRun :=
  if authLockHeld then .deadlocked [] else .completed [.authCall]

/-- Method `refresh_token` (api.py lines 98-111) as a run, entered with
`_auth_lock` free: it acquires `_auth_lock` (line 100) and attempts the
renewal (`refreshCall`); on any renewal failure (`refreshOk = false`) it
invokes `await self.authenticate()` (line 111) while still holding
`_auth_lock`, so the fallback runs as `authenticate_run true`. -/
def refresh_token_run (refreshOk : Bool) : AuthRun :=
  if refreshOk then .completed [.refreshCall]
  else
    match authenticate_run true with
    | .completed calls => .completed (.refreshCall :: calls)
    | .deadlocked calls => .deadlocked (.refreshCall :: calls)

/-- Method `ensure_token_valid` (api.py lines 113-118) as a run, called with
no lock held: `authenticate` when the token or its expiration is absent;
`refresh_token` when `now >= expiration - 5 minutes`; nothing otherwise. -/
def ensure_token_valid_run (token : Option Nat) (tokenExpiration : Option Int)
    (now : Int) (refreshOk : Bool) : AuthRun :=
  match token, tokenExpiration with
  | some _, some expiration =>
      if now ≥ expiration - 5 * 60 then refresh_token_run refreshOk else .completed []
  | _, _ => authenticate_run false

/-- Claim C3, the code evaluated at the failing input — the no-token branch
performs one completed full authentication and the fresh-token branch no call
at all, as claimed; but on the stale-token branch with a failing renewal
(here: token 9, expiration 1000 s, now 700 s, inside the 5-minute margin) the
fallback `authenticate` of `refresh_token` re-awaits the non-reentrant
`_auth_lock` that `refresh_token` still holds: the run blocks forever after
the renewal attempt, performing no credential exchange, instead of completing
a full authenticate as the claim states.  Acquiring the held lock in
isolation likewise blocks before any call. -/
theorem claim_C3_refresh_fallback_deadlock :
    ensure_token_valid_run none none 0 true = .completed [.authCall] ∧
      ensure_token_valid_run (some 9) (some 1000) 699 true = .completed [] ∧
      ensure_token_valid_run (some 9) (some 1000) 700 true = .completed [.refreshCall] ∧
      ensure_token_valid_run (some 9) (some 1000) 700 false = .deadlocked [.refreshCall] ∧
      authenticate_run true = .deadlocked [] := by
  refine ⟨rfl, ?_, ?_, ?_, rfl⟩ <;> decide

/-! ## Client state across the retry path (C8)

`ClientState` holds the parts of `MolekuleApi` touched by the
transport-failure recovery path: the HTTP session, the `ThreadPoolExecutor`,
the token and the credentials. -/

/-- The mutable client state of `MolekuleApi.__init__` (api.py lines 39-52)
relevant to the retry path. -/
structure ClientState where
  sessionOpen : Bool
  executorAlive : Bool
  token : Option Nat
  email : String
  password : String
deriving DecidableEq, Repr

/-- Method `close` (api.py lines 274-282): closes the HTTP session *and* shuts down
the ThreadPoolExecutor (`self.executor.shutdown(wait=False)`). -/
def close (s : ClientState) : ClientState :=
  { s with sessionOpen := false, executorAlive := false }

/-- The `session` property (api.py lines 54-66): lazily recreates a missing
or closed session. -/
def getSession (s : ClientState) : ClientState :=
  { s with sessionOpen := true }

/-- The transport-failure recovery of `_make_request` (api.py lines 154-157):
after the backoff sleep it runs `await self.close()` (comment: "Force session
recreation") and then re-obtains the session. -/
def transportFailureRecovery (s : ClientState) : ClientState :=
  getSession (close s)

/-- Method `authenticate` (api.py lines 68-81) submits the Cognito exchange to the
executor via `loop.run_in_executor(self.executor, ...)`; after
`ThreadPoolExecutor.shutdown` that submission raises, so `authenticate` fails
(raises `AuthenticationError`, modelled as `none`) whenever the executor has
been shut down. -/
def authenticate (s : ClientState) : Option ClientState :=
  if s.executorAlive then some { s with token := some (s.token.getD 0 + 1) } else none

/-- A concrete client state before a transport failure: open session, live
executor, a valid token and credentials. -/
def clientStateExample : ClientState :=
  { sessionOpen := true, executorAlive := true, token := some 5,
    email := "user at example.com", password := "pw" }

/-- Claim C8, the code evaluated at the failing input — after the transport-failure
recovery path runs, the session has indeed been rebuilt and the token and
credentials are untouched, but the executor has been shut down
(`close()` at api.py line 156 runs `self.executor.shutdown` of line 282), so a
subsequent `authenticate` fails instead of being runnable as before: the
recovery does *not* confine its effect to the session. -/
theorem claim_C8_recovery_kills_executor :
    (transportFailureRecovery clientStateExample).sessionOpen = true ∧
      (transportFailureRecovery clientStateExample).token = clientStateExample.token ∧
      (transportFailureRecovery clientStateExample).email = clientStateExample.email ∧
      (transportFailureRecovery clientStateExample).password = clientStateExample.password ∧
      authenticate clientStateExample ≠ none ∧
      (transportFailureRecovery clientStateExample).executorAlive = false ∧
      authenticate (transportFailureRecovery clientStateExample) = none := by
  refine ⟨rfl, rfl, rfl, rfl, ?_, rfl, rfl⟩
  decide

/-! ## Error propagation through the operations (C5)

The claim is about which errors escape the operations, so the pipeline is
extended here with its authentication-failure path: `PipelineResult` adds the
raised `AuthenticationError` outcome, `runLoopAuth` makes the 401-branch
`authenticate()` fallible, and `_make_request_auth` adds the fallible entry
`ensure_token_valid()`.  With every authentication succeeding this full
pipeline coincides with `runLoop`/`_make_request` above
(`runLoopAuth_all_ok`, `make_request_auth_all_ok`, `ops_auth_all_ok`). -/

/-- A script on which every attempt is a transport failure (JSON body type). -/
def allFailJson : Nat → AttemptOutcome Json := fun _ => .transportFail

/-- A script on which every attempt is a transport failure (sensor body
type). -/
def allFailSensor : Nat → AttemptOutcome SensorResponseBody := fun _ => .transportFail

/-- Claim C5, counterexample — on a request whose every attempt is a transport
failure, `_make_request` raises `ApiConnectionError`, yet each operation
returns normally (`None` for the getters, `False` for the setters) instead of
letting the error propagate: every operation wraps the pipeline in
`except Exception` (api.py lines 168, 184, 227, 241, 258, 270). -/
theorem claim_C5_counterexample :
    (_make_request 0 allFailJson).2 = .apiConnectionError ∧
      (_make_request 0 allFailSensor).2 = .apiConnectionError ∧
      get_devices 0 allFailJson = none ∧
      get_sensor_data 0 allFailSensor = none ∧
      get_aqi 0 allFailJson = none ∧
      set_power_status 0 allFailJson ("A1") true = false ∧
      set_fan_speed 0 allFailJson ("A1") 1 = false ∧
      set_auto_mode 0 allFailJson ("A1") true false = false :=
  ⟨rfl, rfl, rfl, rfl, rfl, rfl, rfl, rfl⟩

/-- Result of the full `_make_request`, including the authentication-failure
path: a normal return, a raised `ApiConnectionError` (api.py line 159), or a
raised `AuthenticationError` (api.py line 81, reached from
`ensure_token_valid` at line 124 or from the 401-branch `authenticate()` at
line 134). -/
inductive PipelineResult (β : Type) where
  | ret (body : Option β) : PipelineResult β
  | apiConnectionError : PipelineResult β
  | authenticationError : PipelineResult β
deriving DecidableEq, Repr

/-- Embedding of the authentication-infallible pipeline result into the full
one. -/
def MakeRequestResult.withAuth {β : Type} : MakeRequestResult β → PipelineResult β
  | .ret body => .ret body
  | .apiConnectionError => .apiConnectionError

/-- The retry loop of `_make_request` with a fallible 401-branch
`authenticate()` (api.py line 134): `authOk i` tells whether the i-th
authenticate call of this request succeeds; a failing call raises
`AuthenticationError` (api.py line 81) out of the loop.  Every other branch
is that of `runLoop`. -/
def runLoopAuth {β : Type} (script : Nat → AttemptOutcome β) (authOk : Nat → Bool) :
    Nat → Nat → LoopEffects → LoopEffects × PipelineResult β
  | 0, _, eff => (eff, .ret none)
  | remaining + 1, attempt, eff =>
      let eff1 := { eff with attemptsMade := eff.attemptsMade + 1 }
      match script attempt with
      | .httpResp status body =>
          if status = 401 then
            if authOk eff1.authCalls then
              runLoopAuth script authOk remaining (attempt + 1)
                { eff1 with authCalls := eff1.authCalls + 1,
                            token := eff1.token + 1,
                            header := eff1.token + 1 }
            else ({ eff1 with authCalls := eff1.authCalls + 1 }, .authenticationError)
          else if status = 204 then (eff1, .ret none)
          else if status ≠ 200 then (eff1, .ret none)
          else (eff1, .ret (some body))
      | .transportFail =>
          if attempt + 1 < _retry_attempts then
            runLoopAuth script authOk remaining (attempt + 1)
              { eff1 with sleeps := eff1.sleeps ++ [_retry_delay * (attempt + 1)],
                          sessionRebuilds := eff1.sessionRebuilds + 1 }
          else (eff1, .apiConnectionError)

/-- The full `_make_request` (api.py lines 120-161): the entry
`await self.ensure_token_valid()` (line 124) either leaves the valid token
`token0` in place (`entryOk = true`) or raises `AuthenticationError` out of
its `authenticate()` branch before any attempt is issued (`entryOk = false`;
the deadlocking refresh-fallback branch of `ensure_token_valid` is settled
separately by `ensure_token_valid_run`); then the retry loop runs with
fallible 401 re-authentication. -/
def _make_request_auth {β : Type} (entryOk : Bool) (token0 : Nat)
    (authOk : Nat → Bool) (script : Nat → AttemptOutcome β) :
    LoopEffects × PipelineResult β :=
  if entryOk then
    runLoopAuth script authOk _retry_attempts 0
      { attemptsMade := 0, sleeps := [], authCalls := 0, sessionRebuilds := 0,
        token := token0, header := token0 }
  else
    ({ attemptsMade := 0, sleeps := [], authCalls := 0, sessionRebuilds := 0,
       token := token0, header := token0 }, .authenticationError)

theorem runLoopAuth_all_ok {β : Type} (script : Nat → AttemptOutcome β) (r : Nat) :
    ∀ (a : Nat) (eff : LoopEffects),
    runLoopAuth script (fun _ => true) r a eff =
      ((runLoop script r a eff).1, (runLoop script r a eff).2.withAuth) := by
  induction r with
  | zero => intro a eff; rfl
  | succ n ih =>
      intro a eff
      simp only [runLoopAuth, runLoop]
      cases hs : script a with
      | transportFail =>
          by_cases h : a + 1 < _retry_attempts
          · simp only [h, if_true, ih]
          · simp only [h, if_false, MakeRequestResult.withAuth]
      | httpResp status body =>
          by_cases h401 : status = 401
          · subst h401
            simp [ih]
          · by_cases h204 : status = 204
            · subst h204
              simp [MakeRequestResult.withAuth]
            · by_cases h200 : status = 200
              · subst h200
                simp [h401, MakeRequestResult.withAuth]
              · simp [h401, h204, h200, MakeRequestResult.withAuth]

theorem make_request_auth_all_ok {β : Type} (token0 : Nat)
    (script : Nat → AttemptOutcome β) :
    _make_request_auth true token0 (fun _ => true) script =
      ((_make_request token0 script).1, (_make_request token0 script).2.withAuth) := by
  unfold _make_request_auth _make_request
  rw [if_pos rfl]
  exact runLoopAuth_all_ok script _retry_attempts 0 _

/-- Operation `get_devices` over the full pipeline (api.py lines 163-170):
the `except Exception` at line 168 absorbs `AuthenticationError` exactly as
it absorbs `ApiConnectionError`. -/
def get_devices_auth (entryOk : Bool) (token0 : Nat) (authOk : Nat → Bool)
    (script : Nat → AttemptOutcome Json) : Option Json :=
  match (_make_request_auth entryOk token0 authOk script).2 with
  | .authenticationError => none
  | .apiConnectionError => none
  | .ret none => none
  | .ret (some data) => if data.truthy then some (clean_none_values data) else none

/-- Operation `get_aqi` over the full pipeline (api.py lines 264-272). -/
def get_aqi_auth (entryOk : Bool) (token0 : Nat) (authOk : Nat → Bool)
    (script : Nat → AttemptOutcome Json) : Option Json :=
  match (_make_request_auth entryOk token0 authOk script).2 with
  | .authenticationError => none
  | .apiConnectionError => none
  | .ret none => none
  | .ret (some data) => if data.truthy then some (clean_none_values data) else none

/-- Operation `get_sensor_data` over the full pipeline (api.py lines
172-186). -/
def get_sensor_data_auth (entryOk : Bool) (token0 : Nat) (authOk : Nat → Bool)
    (script : Nat → AttemptOutcome SensorResponseBody) : Option ProcessedData :=
  match (_make_request_auth entryOk token0 authOk script).2 with
  | .authenticationError => none
  | .apiConnectionError => none
  | .ret none => none
  | .ret (some data) => if data.truthy then _process_sensor_data data else none

/-- Operation `set_power_status` over the full pipeline (api.py lines
217-229). -/
def set_power_status_auth (entryOk : Bool) (token0 : Nat) (authOk : Nat → Bool)
    (script : Nat → AttemptOutcome Json) (serial : String) (status : Bool) : Bool :=
  match (_make_request_auth entryOk token0 authOk script).2 with
  | .authenticationError => false
  | .apiConnectionError => false
  | .ret _ => true

/-- Operation `set_fan_speed` over the full pipeline (api.py lines
231-243). -/
def set_fan_speed_auth (entryOk : Bool) (token0 : Nat) (authOk : Nat → Bool)
    (script : Nat → AttemptOutcome Json) (serial : String) (speed : Int) : Bool :=
  match (_make_request_auth entryOk token0 authOk script).2 with
  | .authenticationError => false
  | .apiConnectionError => false
  | .ret _ => true

/-- Operation `set_auto_mode` over the full pipeline (api.py lines
245-262). -/
def set_auto_mode_auth (entryOk : Bool) (token0 : Nat) (authOk : Nat → Bool)
    (script : Nat → AttemptOutcome Json) (serial : String) (auto silent : Bool) : Bool :=
  if auto then
    match (_make_request_auth entryOk token0 authOk script).2 with
    | .authenticationError => false
    | .apiConnectionError => false
    | .ret _ => true
  else set_fan_speed_auth entryOk token0 authOk script serial 1

theorem ops_auth_all_ok (token0 : Nat) (jscript : Nat → AttemptOutcome Json)
    (sscript : Nat → AttemptOutcome SensorResponseBody) (serial : String)
    (onoff auto silent : Bool) (speed : Int) :
    get_devices_auth true token0 (fun _ => true) jscript = get_devices token0 jscript ∧
      get_aqi_auth true token0 (fun _ => true) jscript = get_aqi token0 jscript ∧
      get_sensor_data_auth true token0 (fun _ => true) sscript =
        get_sensor_data token0 sscript ∧
      set_power_status_auth true token0 (fun _ => true) jscript serial onoff =
        set_power_status token0 jscript serial onoff ∧
      set_fan_speed_auth true token0 (fun _ => true) jscript serial speed =
        set_fan_speed token0 jscript serial speed ∧
      set_auto_mode_auth true token0 (fun _ => true) jscript serial auto silent =
        set_auto_mode token0 jscript serial auto silent := by
  have hj := make_request_auth_all_ok token0 jscript
  have hs := make_request_auth_all_ok token0 sscript
  refine ⟨?_, ?_, ?_, ?_, ?_, ?_⟩
  · unfold get_devices_auth get_devices
    rw [hj]
    cases hr : (_make_request token0 jscript).2 with
    | ret b => cases b <;> rfl
    | apiConnectionError => rfl
  · unfold get_aqi_auth get_aqi
    rw [hj]
    cases hr : (_make_request token0 jscript).2 with
    | ret b => cases b <;> rfl
    | apiConnectionError => rfl
  · unfold get_sensor_data_auth get_sensor_data
    rw [hs]
    cases hr : (_make_request token0 sscript).2 with
    | ret b => cases b <;> rfl
    | apiConnectionError => rfl
  · unfold set_power_status_auth set_power_status
    rw [hj]
    cases hr : (_make_request token0 jscript).2 <;> rfl
  · unfold set_fan_speed_auth set_fan_speed
    rw [hj]
    cases hr : (_make_request token0 jscript).2 <;> rfl
  · cases auto with
    | true =>
        unfold set_auto_mode_auth set_auto_mode
        rw [hj]
        cases hr : (_make_request token0 jscript).2 <;> rfl
    | false =>
        unfold set_auto_mode_auth set_auto_mode set_fan_speed_auth set_fan_speed
        rw [hj]
        cases hr : (_make_request token0 jscript).2 <;> rfl

theorem make_request_auth_soft {β : Type} (token0 : Nat) (authOk : Nat → Bool)
    (script : Nat → AttemptOutcome β) (status : Nat) (body : β)
    (h0 : script 0 = .httpResp status body) (h401 : status ≠ 401)
    (h204 : status ≠ 204) (h200 : status ≠ 200) :
    _make_request_auth true token0 authOk script =
      ({ attemptsMade := 1, sleeps := [], authCalls := 0, sessionRebuilds := 0,
         token := token0, header := token0 }, .ret none) := by
  simp [_make_request_auth, _retry_attempts, runLoopAuth, h0, h401, h204, h200]

/-- Claim C5 as amended — every operation absorbs its failures: a soft
failure (a first response with status other than 200/204/401) makes the
pipeline return `None`, upon which the getters return `None` while the
setters return `True` (they report success whenever no exception escapes the
pipeline); and both raised pipeline errors — `ApiConnectionError` on retry
exhaustion and `AuthenticationError` from the entry `ensure_token_valid` or
from a failed 401-branch `authenticate` — are caught by the
`except Exception` of each operation, the getters returning `None` and the
setters `False`.  No error propagates out of any operation. -/
theorem claim_C5_soft_and_hard_failures (entryOk : Bool) (token0 : Nat)
    (authOk : Nat → Bool) (jscript : Nat → AttemptOutcome Json)
    (sscript : Nat → AttemptOutcome SensorResponseBody) (serial : String)
    (onoff silent : Bool) (speed : Int) :
    ((_make_request_auth entryOk token0 authOk jscript).2 = .apiConnectionError ∨
        (_make_request_auth entryOk token0 authOk jscript).2 = .authenticationError →
        get_devices_auth entryOk token0 authOk jscript = none ∧
          get_aqi_auth entryOk token0 authOk jscript = none ∧
          set_power_status_auth entryOk token0 authOk jscript serial onoff = false ∧
          set_fan_speed_auth entryOk token0 authOk jscript serial speed = false ∧
          set_auto_mode_auth entryOk token0 authOk jscript serial true silent = false ∧
          set_auto_mode_auth entryOk token0 authOk jscript serial false silent = false) ∧
      ((_make_request_auth entryOk token0 authOk sscript).2 = .apiConnectionError ∨
        (_make_request_auth entryOk token0 authOk sscript).2 = .authenticationError →
        get_sensor_data_auth entryOk token0 authOk sscript = none) ∧
      (∀ status jbody, entryOk = true → jscript 0 = .httpResp status jbody →
        status ≠ 401 → status ≠ 204 → status ≠ 200 →
          get_devices_auth entryOk token0 authOk jscript = none ∧
            get_aqi_auth entryOk token0 authOk jscript = none ∧
            set_power_status_auth entryOk token0 authOk jscript serial onoff = true ∧
            set_fan_speed_auth entryOk token0 authOk jscript serial speed = true ∧
            set_auto_mode_auth entryOk token0 authOk jscript serial true silent = true) ∧
      (∀ status sbody, entryOk = true → sscript 0 = .httpResp status sbody →
        status ≠ 401 → status ≠ 204 → status ≠ 200 →
          get_sensor_data_auth entryOk token0 authOk sscript = none) := by
  refine ⟨fun h => ?_, fun h => ?_,
    fun status jbody hentry h0 h401 h204 h200 => ?_,
    fun status sbody hentry h0 h401 h204 h200 => ?_⟩
  · rcases h with h | h <;>
      exact ⟨by simp [get_devices_auth, h], by simp [get_aqi_auth, h],
        by simp [set_power_status_auth, h], by simp [set_fan_speed_auth, h],
        by simp [set_auto_mode_auth, h], by simp [set_auto_mode_auth, set_fan_speed_auth, h]⟩
  · rcases h with h | h <;> simp [get_sensor_data_auth, h]
  · subst hentry
    have hmr := make_request_auth_soft token0 authOk jscript status jbody h0 h401 h204 h200
    exact ⟨by simp [get_devices_auth, hmr], by simp [get_aqi_auth, hmr],
      by simp [set_power_status_auth, hmr], by simp [set_fan_speed_auth, hmr],
      by simp [set_auto_mode_auth, hmr]⟩
  · subst hentry
    have hmr := make_request_auth_soft token0 authOk sscript status sbody h0 h401 h204 h200
    simp [get_sensor_data_auth, hmr]

/-- A script whose first response is a soft failure (HTTP 500), JSON body. -/
def softFailJson : Nat → AttemptOutcome Json := fun _ => .httpResp 500 (.obj [])

/-- A script whose first response is a soft failure (HTTP 500), sensor
body. -/
def softFailSensor : Nat → AttemptOutcome SensorResponseBody := fun _ => .httpResp 500 .empty

/-- A script whose every response is 401 (JSON body type). -/
def all401Json : Nat → AttemptOutcome Json := fun _ => .httpResp 401 (.obj [])

/-- A script whose every response is 401 (sensor body type). -/
def all401Sensor : Nat → AttemptOutcome SensorResponseBody := fun _ => .httpResp 401 .empty

/-- The constantly-true and constantly-false authentication oracles. -/
def authAlways : Nat → Bool := fun _ => true

/-- The constantly-failing authentication oracle (every Cognito exchange
raises). -/
def authNever : Nat → Bool := fun _ => false

theorem claim_C5_witness :
    (get_devices_auth true 7 authAlways allFailJson = none ∧
        get_aqi_auth true 7 authAlways allFailJson = none ∧
        set_power_status_auth true 7 authAlways allFailJson ("A1") true = false ∧
        set_fan_speed_auth true 7 authAlways allFailJson ("A1") 3 = false ∧
        set_auto_mode_auth true 7 authAlways allFailJson ("A1") true false = false ∧
        set_auto_mode_auth true 7 authAlways allFailJson ("A1") false false = false) ∧
      get_sensor_data_auth true 7 authAlways allFailSensor = none ∧
      (get_devices_auth false 7 authAlways softFailJson = none ∧
        get_aqi_auth false 7 authAlways softFailJson = none ∧
        set_power_status_auth false 7 authAlways softFailJson ("A1") true = false ∧
        set_fan_speed_auth false 7 authAlways softFailJson ("A1") 3 = false ∧
        set_auto_mode_auth false 7 authAlways softFailJson ("A1") true false = false ∧
        set_auto_mode_auth false 7 authAlways softFailJson ("A1") false false = false) ∧
      get_sensor_data_auth false 7 authAlways softFailSensor = none ∧
      (get_devices_auth true 7 authNever all401Json = none ∧
        get_aqi_auth true 7 authNever all401Json = none ∧
        set_power_status_auth true 7 authNever all401Json ("A1") true = false ∧
        set_fan_speed_auth true 7 authNever all401Json ("A1") 3 = false ∧
        set_auto_mode_auth true 7 authNever all401Json ("A1") true false = false ∧
        set_auto_mode_auth true 7 authNever all401Json ("A1") false false = false) ∧
      get_sensor_data_auth true 7 authNever all401Sensor = none ∧
      (get_devices_auth true 7 authAlways softFailJson = none ∧
        get_aqi_auth true 7 authAlways softFailJson = none ∧
        set_power_status_auth true 7 authAlways softFailJson ("A1") true = true ∧
        set_fan_speed_auth true 7 authAlways softFailJson ("A1") 3 = true ∧
        set_auto_mode_auth true 7 authAlways softFailJson ("A1") true false = true) ∧
      get_sensor_data_auth true 7 authAlways softFailSensor = none := by
  have hconn := claim_C5_soft_and_hard_failures true 7 authAlways allFailJson allFailSensor
    ("A1") true false 3
  have hentry := claim_C5_soft_and_hard_failures false 7 authAlways softFailJson softFailSensor
    ("A1") true false 3
  have h401 := claim_C5_soft_and_hard_failures true 7 authNever all401Json all401Sensor
    ("A1") true false 3
  have hsoft := claim_C5_soft_and_hard_failures true 7 authAlways softFailJson softFailSensor
    ("A1") true false 3
  exact ⟨hconn.1 (Or.inl rfl), hconn.2.1 (Or.inl rfl),
    hentry.1 (Or.inr rfl), hentry.2.1 (Or.inr rfl),
    h401.1 (Or.inr rfl), h401.2.1 (Or.inr rfl),
    hsoft.2.2.1 500 (.obj []) rfl rfl (by decide) (by decide) (by decide),
    hsoft.2.2.2 500 .empty rfl rfl (by decide) (by decide) (by decide)⟩

/-! ## The refresh tick (`async_update_data`, __init__.py lines 30-95) -/

/-- The fields of a device-list entry consulted by the refresh tick:
`serialNumber` and the model name `subProduct.name`. -/
structure Device where
  serialNumber : String
  subProductName : String
deriving DecidableEq, Repr

/-- Line 55 of `__init__.py`: sensor data is fetched only for models other than
"Molekule Air" and "Unknown Model". -/
def modelSupportsSensors (model : String) : Bool :=
  !(model == "Molekule Air" || model == "Unknown Model")

/-- The all-`None` sensor structure substituted for a device without sensor
data (`__init__.py` lines 64-71). -/
def emptySensorData : ProcessedData := ⟨none, none, none, none, none⟩

/-- Result of one refresh tick: `UpdateFailed` raised, or the merged
per-serial snapshot. -/
inductive TickResult where
  | updateFailed : TickResult
  | ok (snapshot : List (String × ProcessedData)) : TickResult
deriving DecidableEq, Repr

/-- Function `async_update_data` (`__init__.py` lines 30-95), restricted to its sensor
merge: with `devices` the result of `get_devices` (`none` raises
`UpdateFailed`, line 34-35) and `sensorScript` giving the per-serial network
script, each device is mapped to its `get_sensor_data` result when its model
supports sensors and the result is truthy, and to the all-`None` structure
otherwise; `get_sensor_data` absorbs its own failures (api.py lines 184-186),
so no per-device failure escapes the loop. -/
def async_update_data (devices : Option (List Device)) (token0 : Nat)
    (sensorScript : String → Nat → AttemptOutcome SensorResponseBody) : TickResult :=
  match devices with
  | none => .updateFailed
  | some content =>
      .ok (content.map (fun device =>
        let sd :=
          if modelSupportsSensors device.subProductName then
            get_sensor_data token0 (sensorScript device.serialNumber)
          else none
        (device.serialNumber, sd.getD emptySensorData)))

/-- The network of the C6 scenario: serial "A1" answers 200 with one valid PM2_5
reading 12.3 among sentinels; every other serial times out on all
attempts. -/
def scenarioScript : String → Nat → AttemptOutcome SensorResponseBody := fun serial _ =>
  if serial = "A1" then
    .httpResp 200 (.withData [⟨"PM2_5", [-1, mkRat 123 10, -1]⟩, ⟨"RH", [-1, -1]⟩])
  else .transportFail

/-- Claim C6 — with two telemetry-capable devices A1 and A2, A1 returning one
valid PM2_5 reading 12.3 among sentinels and A2 failing at the transport
level on all 3 attempts, the tick succeeds (no `UpdateFailed`), maps A1 to
PM2_5 = 12.3 (other pollutants absent) and maps A2 to the all-absent sensor
structure: the telemetry failure of one device never fails the tick. -/
theorem claim_C6_partial_failure_isolation :
    async_update_data
        (some [⟨"A1", "Molekule Air Pro"⟩, ⟨"A2", "Molekule Air Pro"⟩]) 0 scenarioScript =
      .ok [("A1", ⟨some (mkRat 123 10), none, none, none, none⟩), ("A2", emptySensorData)] ∧
      (_make_request 0 (scenarioScript ("A2"))).2 = .apiConnectionError := by
  constructor
  · decide
  · rfl

end Molekule
